import Mathlib

/-!
Shallow embedding of the CoolBox repository (coolbox/core/superframe.py and
coolbox/core/track.py) for checking its natural-language specification.

Geometry values (widths, heights, ratios, scale factors) are embedded as
rationals. Property dictionaries are embedded as association lists that keep
insertion order, matching Python dict semantics for lookup and assignment.
-/

/-- Properties of a peripheral Frame read by the JointView layout code:
the keys width, height and width_ratios of frame.properties.
width_ratios is a 3-tuple; the source indexes it as wr[0] and wr[1]. -/
structure FrameProps where
  width : ℚ
  height : ℚ
  width_ratios : ℚ × ℚ × ℚ
deriving DecidableEq

/-- The four peripheral slots of a JointView, each optionally populated
(the source keeps only the non-None entries of an OrderedDict with keys
top, right, bottom, left). -/
structure SubFrames where
  top : Option FrameProps
  right : Option FrameProps
  bottom : Option FrameProps
  left : Option FrameProps
deriving DecidableEq

/-- The center argument as seen by JointView.__check_sub_frames: whether it is
a Track instance, and whether it has a plot_joint attribute. -/
structure CenterArg where
  isTrack : Bool
  hasPlotJoint : Bool
deriving DecidableEq

/-- The properties dictionary of a JointView, with the construction-time keys
built in JointView.__init__ (sub_frames, center_track, center_width, trbl,
space, cm2px, padding_left) plus the width and height keys that
JointView.__get_figsize writes (absent before the first plot call). -/
structure JointViewProps where
  sub_frames : SubFrames
  center_track : CenterArg
  center_width : ℚ
  trbl : String
  space : ℚ
  cm2px : ℚ
  padding_left : ℚ
  width : Option ℚ
  height : Option ℚ
deriving DecidableEq

/-- JointView.__get_center_offsets: starts from [padding_left, 0], then
top adds (width * width_ratios[0]) to x and (space + height) to y;
bottom adds (width * width_ratios[0]) to x only when top is absent;
left adds (space + height) to x. -/
def getCenterOffsets (p : JointViewProps) : ℚ × ℚ :=
  let space := p.space
  let o1 : ℚ × ℚ := (p.padding_left, 0)
  let o2 : ℚ × ℚ :=
    match p.sub_frames.top with
    | some f => (o1.1 + f.width * f.width_ratios.1, o1.2 + space + f.height)
    | none => o1
  let o3 : ℚ × ℚ :=
    match p.sub_frames.bottom with
    | some f =>
      match p.sub_frames.top with
      | none => (o2.1 + f.width * f.width_ratios.1, o2.2)
      | some _ => o2
    | none => o2
  let o4 : ℚ × ℚ :=
    match p.sub_frames.left with
    | some f => (o3.1 + space + f.height, o3.2)
    | none => o3
  o4

/-- JointView.__get_figsize, the pure size computation: starts from
[center_width, center_width]; top and bottom each set width to their own
width and add (height + space) to height; left and right each add
(height + space) to width. -/
def getFigsizeVal (p : JointViewProps) : ℚ × ℚ :=
  let space := p.space
  let s0 : ℚ × ℚ := (p.center_width, p.center_width)
  let s1 : ℚ × ℚ :=
    match p.sub_frames.top with
    | some f => (f.width, s0.2 + f.height + space)
    | none => s0
  let s2 : ℚ × ℚ :=
    match p.sub_frames.bottom with
    | some f => (f.width, s1.2 + f.height + space)
    | none => s1
  let s3 : ℚ × ℚ :=
    match p.sub_frames.left with
    | some f => (s2.1 + f.height + space, s2.2)
    | none => s2
  match p.sub_frames.right with
  | some f => (s3.1 + f.height + space, s3.2)
  | none => s3

/-- JointView.__get_figsize including its side effect: it stores the computed
size into self.properties under the keys width and height and returns it. -/
def getFigsize (p : JointViewProps) : (ℚ × ℚ) × JointViewProps :=
  let size := getFigsizeVal p
  (size, { p with width := some size.1, height := some size.2 })

/-- The effect of JointView.plot on the properties dictionary of the
JointView itself: the only write to self.properties in the whole call is the
one performed by __get_figsize (plot_frames, plot_center,
__get_center_offsets and __transform_sub_svgs only read it). -/
def plotEffect (p : JointViewProps) : JointViewProps :=
  (getFigsize p).2

/-- The geometric transform that JointView.__transform_sub_svgs applies to one
peripheral SVG: a rotation in degrees followed by a move in pixels. -/
structure SvgTransform where
  rotate : ℚ
  moveX : ℚ
  moveY : ℚ
deriving DecidableEq

/-- The transforms applied by JointView.__transform_sub_svgs; the source only
handles the top and right panels (bottom and left get no transform). -/
structure SubTransforms where
  top : Option SvgTransform
  right : Option SvgTransform
deriving DecidableEq

/-- JointView.__transform_sub_svgs: the top SVG is moved by
(padding_left * cm2px, 0); the right SVG is rotated by 90 and moved to
((center_offsets.x + center_width + height + space) * cm2px,
 (center_offsets.y - width * width_ratios[0]) * cm2px). -/
def transformSubSvgs (p : JointViewProps) (center_offsets : ℚ × ℚ) : SubTransforms :=
  let c_width := p.center_width
  let space := p.space
  { top := p.sub_frames.top.map fun _ =>
      { rotate := 0, moveX := p.padding_left * p.cm2px, moveY := 0 }
    right := p.sub_frames.right.map fun f =>
      { rotate := 90
        moveX := (center_offsets.1 + c_width + f.height + space) * p.cm2px
        moveY := (center_offsets.2 - f.width * f.width_ratios.1) * p.cm2px } }

/-- A value passed in one of the four peripheral slots of the JointView
constructor, as classified by __check_sub_frames: a Frame instance, a Track
instance (implicitly wrapped into a single-track Frame), or anything else
(rejected with a TypeError). -/
inductive PeriphArg where
  | frame (f : FrameProps)
  | track (height : ℚ)
  | other
deriving DecidableEq

/-- The errors JointView construction can raise in __check_sub_frames, in the
order the source checks them: the assert on the number of populated slots,
the TypeError on the center argument, and the TypeError on a peripheral
argument that is neither a Frame nor a Track. -/
inductive InitErr where
  | assertionError
  | typeErrorCenter
  | typeErrorSubFrame
deriving DecidableEq

/-- The center test of __check_sub_frames:
(not isinstance(center, Track)) and (not hasattr(center, "plot_joint")). -/
def centerLacksJoint (c : CenterArg) : Bool :=
  !c.isTrack && !c.hasPlotJoint

/-- JointView.__check_sub_frames: first asserts that at least 2 peripheral
slots are populated, then raises TypeError when the center is neither a Track
nor has plot_joint, then raises TypeError at the first peripheral that is
neither a Frame nor a Track. -/
def checkSubFrames (center : CenterArg) (subs : List PeriphArg) : Except InitErr Unit :=
  if subs.length < 2 then .error .assertionError
  else if centerLacksJoint center then .error .typeErrorCenter
  else if subs.any (fun s => match s with | .other => true | _ => false) then
    .error .typeErrorSubFrame
  else .ok ()

/-- JointView.__init__ up to its validation: collects the non-None peripheral
arguments in the order top, right, bottom, left and runs __check_sub_frames
on them. -/
def jointViewInit (center : CenterArg) (top right bottom left : Option PeriphArg) :
    Except InitErr Unit :=
  checkSubFrames center (([top, right, bottom, left]).filterMap id)

/-! Track registry (coolbox/core/track.py). -/

/-- A value stored in a track properties dictionary: a boolean, a string, a
number, or any other Python object (kept abstract with an integer tag). -/
inductive PValue where
  | bool (b : Bool)
  | str (s : String)
  | num (q : ℚ)
  | obj (tag : ℕ)
deriving DecidableEq

/-- Whether a stored value is a Python boolean. -/
def PValue.isBool : PValue → Bool
  | .bool _ => true
  | _ => false

/-- A Python dict of track properties, embedded as an association list in
insertion order. -/
abbrev Props := List (String × PValue)

/-- The value rewrite done by Track.__bool2str on a single entry: True
becomes the string yes, False becomes the string no, everything else is kept. -/
def bool2strV : PValue → PValue
  | .bool b => .str (if b then "yes" else "no")
  | v => v

/-- Track.__bool2str: replaces every boolean value of the properties dict by
its string sentinel, in place. -/
def bool2str (ps : Props) : Props :=
  ps.map fun kv => (kv.1, bool2strV kv.2)

/-- Python dict assignment d[k] = v: overwrite the value at an existing key,
keeping its position, or append a new entry at the end. -/
def setKey (ps : Props) (k : String) (v : PValue) : Props :=
  match ps with
  | [] => [(k, v)]
  | kv :: rest => if kv.1 = k then (k, v) :: rest else kv :: setKey rest k v

/-- Python dict lookup d.get(k): the value of the first (unique) entry with
key k, if any. -/
def lookupKey (ps : Props) (k : String) : Option PValue :=
  match ps with
  | [] => none
  | kv :: rest => if kv.1 = k then some kv.2 else lookupKey rest k

/-- The name resolution of Track.__init__, run after __bool2str: an existing
name value must be a string or the assert fails; a missing name gets the
generated default. -/
def trackName (ps : Props) (defaultName : String) : Except Unit String :=
  match lookupKey ps "name" with
  | some (.str s) => .ok s
  | some _ => .error ()
  | none => .ok defaultName

/-- Track.__init__ restricted to its effect on the properties dict:
runs __bool2str, resolves the name key, stores it under the name key, and
finally applies the entries of the global feature stack (passed here
explicitly, since it is ambient state outside this file) with plain dict
assignments. -/
def trackInit (props features : Props) (defaultName : String) : Except Unit Props :=
  (trackName (bool2str props) defaultName).map fun nm =>
    features.foldl (fun acc kv => setKey acc kv.1 kv.2)
      (setKey (bool2str props) "name" (.str nm))

/-- The part of a Track object state that Track.__add__ with a Coverage
touches: the coverages list, over an abstract type of Coverage objects. -/
structure TrackState (C : Type) where
  coverages : List C
deriving DecidableEq

/-- Track.__add__ with a Coverage right operand: result = copy(self) uses the
shallow copy of the copy module, so result.coverages is the very same list
object as self.coverages; result.append_coverage(other) then appends to that
shared list in place. The returned pair is (left operand after the call,
result): both end up holding the extended list. -/
def trackAddCoverage {C : Type} (t : TrackState C) (c : C) :
    TrackState C × TrackState C :=
  let shared := t.coverages ++ [c]
  (⟨shared⟩, ⟨shared⟩)

/-- Modelled from the spec: the Frame class (coolbox/core/frame.py is not
under src). A Frame is an ordered sequence of Tracks, over an abstract type
of Track objects. -/
structure FrameObj (T : Type) where
  tracks : List T
deriving DecidableEq

/-- Modelled from the spec: Frame.add_track (frame.py is not under src)
appends the track at the tail of the ordered members, per the spec sentences
"Frame: ordered sequence of Tracks" and "Track_A + Track_B yields a Frame
whose ordered members are [A, B]". -/
def addTrack {T : Type} (f : FrameObj T) (t : T) : FrameObj T :=
  ⟨f.tracks ++ [t]⟩

/-- Track.__add__ with a Track right operand: result = Frame();
result.add_track(self); result.add_track(other). -/
def trackAddTrack {T : Type} (a b : T) : FrameObj T :=
  addTrack (addTrack ⟨[]⟩ a) b

/-- Modelled from the spec: Frame.__add__ with a Track right operand
(frame.py is not under src) yields a copy of the Frame with the track
appended at the tail, per the spec sentence "Track_A + Track_B + Track_C
yields [A, B, C]". -/
def frameAddTrack {T : Type} (f : FrameObj T) (t : T) : FrameObj T :=
  ⟨f.tracks ++ [t]⟩

/-- Python str.endswith(s): s is a suffix of p. Embedded by matching the
reversed character lists front to front. -/
def startsWithList : List Char → List Char → Bool
  | _, [] => true
  | [], _ :: _ => false
  | a :: as, b :: bs => decide (a = b) && startsWithList as bs

/-- Python str.endswith. -/
def endswith (p s : String) : Bool :=
  startsWithList p.data.reverse s.data.reverse

/-- The result of the Arcs factory function: a BEDPE track, a Pairs track, or
a NotImplementedError carrying its message. -/
inductive ArcsResult where
  | bedpe
  | pairs
  | notImplemented (msg : String)
deriving DecidableEq

/-- The Arcs factory function: dispatches on the file extension, accepting
.bedpe and .bedpe.bgz for BEDPE, .pairs and .pairs.bgz for Pairs, and raising
NotImplementedError otherwise. -/
def Arcs (file : String) : ArcsResult :=
  if endswith file ".bedpe" || endswith file ".bedpe.bgz" then .bedpe
  else if endswith file ".pairs" || endswith file ".pairs.bgz" then .pairs
  else .notImplemented "Arcs track only support .bedpe or .pairs input format."

/-! Spec-side formulas, written from the words of the claims to be compared
with the functions embedded from the source. -/

/-- The center-offset formula exactly as claim C2 states it: x is
padding_left, plus (top present) top.width * top.width_ratios[0], plus
(left present) space + left.height; y is space + top.height when top is
present, else 0; no other slot contributes. -/
def centerOffsetsClaimC2 (p : JointViewProps) : ℚ × ℚ :=
  (p.padding_left
    + (match p.sub_frames.top with
       | some f => f.width * f.width_ratios.1
       | none => 0)
    + (match p.sub_frames.left with
       | some f => p.space + f.height
       | none => 0),
   match p.sub_frames.top with
   | some f => p.space + f.height
   | none => 0)

/-- The amended center-offset formula: same as claim C2 plus the one extra
contribution the source has, namely bottom.width * bottom.width_ratios[0]
added to x when a bottom peripheral is present and no top peripheral is. -/
def centerOffsetsAmendedC2 (p : JointViewProps) : ℚ × ℚ :=
  (p.padding_left
    + (match p.sub_frames.top with
       | some f => f.width * f.width_ratios.1
       | none => 0)
    + (match p.sub_frames.top, p.sub_frames.bottom with
       | none, some f => f.width * f.width_ratios.1
       | _, _ => 0)
    + (match p.sub_frames.left with
       | some f => p.space + f.height
       | none => 0),
   match p.sub_frames.top with
   | some f => p.space + f.height
   | none => 0)

/-! Concrete instances used by witnesses and counterexamples. -/

/-- A concrete top frame: width 25, height 3, width_ratios (1/10, 4/5, 1/10)
(the width a frame with the default ratios gets after
__adjust_sub_frames_width with center_width 20). -/
def fTopEx : FrameProps :=
  { width := 25, height := 3, width_ratios := (1/10, 4/5, 1/10) }

/-- A concrete right frame, same geometry as fTopEx. -/
def fRightEx : FrameProps :=
  { width := 25, height := 3, width_ratios := (1/10, 4/5, 1/10) }

/-- A concrete bottom frame: width 10, height 2, width_ratios (1/2, 1/4, 1/4). -/
def fBottomEx : FrameProps :=
  { width := 10, height := 2, width_ratios := (1/2, 1/4, 1/4) }

/-- A concrete left frame: width 8, height 3, width_ratios (1/10, 4/5, 1/10). -/
def fLeftEx : FrameProps :=
  { width := 8, height := 3, width_ratios := (1/10, 4/5, 1/10) }

/-- A JointView whose populated peripheral slots are exactly top and right,
with the default geometry parameters of JointView.__init__. -/
def pTopRight : JointViewProps :=
  { sub_frames := { top := some fTopEx, right := some fRightEx, bottom := none, left := none }
    center_track := { isTrack := true, hasPlotJoint := true }
    center_width := 20, trbl := "1212", space := 1, cm2px := 57/2, padding_left := 1
    width := none, height := none }

/-- A JointView whose populated peripheral slots are exactly bottom and left,
with the default geometry parameters of JointView.__init__. -/
def pBottomLeft : JointViewProps :=
  { sub_frames := { top := none, right := none, bottom := some fBottomEx, left := some fLeftEx }
    center_track := { isTrack := true, hasPlotJoint := true }
    center_width := 20, trbl := "1212", space := 1, cm2px := 57/2, padding_left := 1
    width := none, height := none }

/-- A concrete properties dict holding one boolean entry. -/
def propsEx : Props := [("balance", .bool true), ("title", .str "")]

/-- The properties dict Track.__init__ builds from propsEx with an empty
feature stack and default name Cool.1. -/
def resEx : Props :=
  [("balance", .str "yes"), ("title", .str ""), ("name", .str "Cool.1")]

/-! Theorems. -/

/-- C1 (counterexample): for the JointView pTopRight, whose populated slots
are exactly top and right, the computed canvas size is (29, 24): the height
is center_width + top.height + space = 24 as the claim says, but the width is
29 = top.width + right.height + space, not top.width = 25. -/
theorem c1_figsize_counterexample :
    getFigsizeVal pTopRight = (29, 24) ∧
    getFigsizeVal pTopRight ≠
      (fTopEx.width, pTopRight.center_width + fTopEx.height + pTopRight.space) := by
  have h : getFigsizeVal pTopRight = (29, 24) := by
    simp [getFigsizeVal, pTopRight, fTopEx, fRightEx]
    norm_num
  refine ⟨h, ?_⟩
  rw [h]
  simp [pTopRight, fTopEx, Prod.ext_iff]

/-- C1 (amended): for every JointView whose populated peripheral slots are
exactly top and right, the computed canvas size is width = top.width +
right.height + space (the right panel also contributes to the width) and
height = center_width + top.height + space. -/
theorem figsize_top_right (p : JointViewProps) (t r : FrameProps)
    (htop : p.sub_frames.top = some t) (hright : p.sub_frames.right = some r)
    (hbottom : p.sub_frames.bottom = none) (hleft : p.sub_frames.left = none) :
    getFigsizeVal p = (t.width + r.height + p.space, p.center_width + t.height + p.space) := by
  simp [getFigsizeVal, htop, hright, hbottom, hleft]

/-- Witness for figsize_top_right at the concrete JointView pTopRight. -/
theorem figsize_top_right_witness : getFigsizeVal pTopRight = (29, 24) := by
  rw [figsize_top_right pTopRight fTopEx fRightEx rfl rfl rfl rfl]
  simp [pTopRight, fTopEx, fRightEx]
  norm_num

/-- C2 (counterexample): for the JointView pBottomLeft, whose populated slots
are bottom and left, the computed center offset is (10, 0), but the formula
of claim C2 gives (5, 0): the bottom peripheral does contribute
bottom.width * bottom.width_ratios[0] = 5 to x when no top is present. -/
theorem c2_center_offsets_counterexample :
    getCenterOffsets pBottomLeft ≠ centerOffsetsClaimC2 pBottomLeft ∧
    getCenterOffsets pBottomLeft = (10, 0) ∧
    centerOffsetsClaimC2 pBottomLeft = (5, 0) := by
  have h1 : getCenterOffsets pBottomLeft = (10, 0) := by
    simp [getCenterOffsets, pBottomLeft, fBottomEx, fLeftEx]
    norm_num
  have h2 : centerOffsetsClaimC2 pBottomLeft = (5, 0) := by
    simp [centerOffsetsClaimC2, pBottomLeft, fBottomEx, fLeftEx]
    norm_num
  refine ⟨?_, h1, h2⟩
  rw [h1, h2]
  simp [Prod.ext_iff]

/-- C2 (amended): for every JointView, the computed center offset follows the
claimed formula extended by one term: x = padding_left, plus (top present)
top.width * top.width_ratios[0], plus (bottom present and top absent)
bottom.width * bottom.width_ratios[0], plus (left present) space +
left.height; y = space + top.height when top is present, else 0. -/
theorem center_offsets_amended (p : JointViewProps) :
    getCenterOffsets p = centerOffsetsAmendedC2 p := by
  rcases htop : p.sub_frames.top with _ | t <;>
  rcases hbot : p.sub_frames.bottom with _ | b <;>
  rcases hleft : p.sub_frames.left with _ | l <;>
  simp [getCenterOffsets, centerOffsetsAmendedC2, htop, hbot, hleft] <;>
  ring_nf

/-- C6: for every JointView with a populated right slot, the right panel is
rotated 90 degrees and moved to ((center_offset.x + center_width +
right.height + space) * cm2px, (center_offset.y - right.width *
right.width_ratios[0]) * cm2px); the top panel, when present, is moved by
(padding_left * cm2px, 0), a horizontal translation only. -/
theorem transform_right_position (p : JointViewProps) (r : FrameProps)
    (hr : p.sub_frames.right = some r) :
    (transformSubSvgs p (getCenterOffsets p)).right =
      some { rotate := 90
             moveX := ((getCenterOffsets p).1 + p.center_width + r.height + p.space) * p.cm2px
             moveY := ((getCenterOffsets p).2 - r.width * r.width_ratios.1) * p.cm2px } ∧
    ∀ t, p.sub_frames.top = some t →
      (transformSubSvgs p (getCenterOffsets p)).top =
        some { rotate := 0, moveX := p.padding_left * p.cm2px, moveY := 0 } := by
  constructor
  · simp [transformSubSvgs, hr]
  · intro t ht
    simp [transformSubSvgs, ht]

/-- Witness for transform_right_position at the concrete JointView pTopRight:
the right panel lands at ((7/2 + 20 + 3 + 1) * 57/2, (4 - 5/2) * 57/2) =
(3135/4, 171/4) pixels. -/
theorem transform_right_position_witness :
    (transformSubSvgs pTopRight (getCenterOffsets pTopRight)).right =
      some { rotate := 90, moveX := 3135/4, moveY := 171/4 } := by
  rw [(transform_right_position pTopRight fRightEx rfl).1]
  simp [getCenterOffsets, pTopRight, fTopEx, fRightEx, SvgTransform.mk.injEq]
  norm_num

/-- C10: plot writes the computed canvas width and height into the
properties of the JointView under the keys width and height, overwrites them
again with the same values on a repeated call, and leaves every
construction-time configuration key (sub_frames, center_track, center_width,
trbl, space, cm2px, padding_left) unchanged. -/
theorem plot_writes_width_height (p : JointViewProps) :
    (plotEffect p).width = some (getFigsizeVal p).1 ∧
    (plotEffect p).height = some (getFigsizeVal p).2 ∧
    (plotEffect (plotEffect p)).width = some (getFigsizeVal p).1 ∧
    (plotEffect (plotEffect p)).height = some (getFigsizeVal p).2 ∧
    (plotEffect p).sub_frames = p.sub_frames ∧
    (plotEffect p).center_track = p.center_track ∧
    (plotEffect p).center_width = p.center_width ∧
    (plotEffect p).trbl = p.trbl ∧
    (plotEffect p).space = p.space ∧
    (plotEffect p).cm2px = p.cm2px ∧
    (plotEffect p).padding_left = p.padding_left := by
  refine ⟨rfl, rfl, rfl, rfl, rfl, rfl, rfl, rfl, rfl, rfl, rfl⟩

/-- C4: whenever fewer than 2 of the four peripheral slots are populated,
JointView construction fails with the AssertionError of __check_sub_frames. -/
theorem jointview_too_few_slots (center : CenterArg) (t r b l : Option PeriphArg)
    (h : ([t, r, b, l].filterMap id).length < 2) :
    jointViewInit center t r b l = .error .assertionError := by
  unfold jointViewInit checkSubFrames
  rw [if_pos h]

/-- Witness for jointview_too_few_slots with all four slots empty. -/
theorem jointview_too_few_slots_witness :
    jointViewInit { isTrack := true, hasPlotJoint := true } none none none none =
      .error .assertionError :=
  jointview_too_few_slots _ none none none none (by decide)

/-- C5 (counterexample): a construction whose center is neither a Track nor
has plot_joint but with only one populated slot fails with an AssertionError,
not with the TypeError the claim promises: the slot-count assert runs before
the center check. -/
theorem c5_center_counterexample :
    jointViewInit { isTrack := false, hasPlotJoint := false }
      (some (.frame fTopEx)) none none none = .error .assertionError ∧
    InitErr.assertionError ≠ InitErr.typeErrorCenter :=
  ⟨rfl, by decide⟩

/-- C5 (amended): provided at least 2 peripheral slots are populated, a
center that is neither a Track instance nor has plot_joint makes construction
fail with the center TypeError; conversely a center that is a Track or has
plot_joint never produces the center TypeError. -/
theorem jointview_center_typeerror (center : CenterArg) (t r b l : Option PeriphArg)
    (h : 2 ≤ ([t, r, b, l].filterMap id).length) :
    (centerLacksJoint center = true →
       jointViewInit center t r b l = .error .typeErrorCenter) ∧
    (centerLacksJoint center = false →
       jointViewInit center t r b l ≠ .error .typeErrorCenter) := by
  have h2 : ¬ ([t, r, b, l].filterMap id).length < 2 := Nat.not_lt.mpr h
  unfold jointViewInit checkSubFrames
  constructor
  · intro hc
    rw [if_neg h2, if_pos hc]
  · intro hc
    rw [if_neg h2]
    rw [hc]
    simp only [Bool.false_eq_true, if_false]
    split <;> simp

/-- Witness for jointview_center_typeerror: a joint-incapable center with two
populated slots fails with the center TypeError. -/
theorem jointview_center_typeerror_witness :
    jointViewInit { isTrack := false, hasPlotJoint := false }
      (some (.frame fTopEx)) (some (.frame fRightEx)) none none =
      .error .typeErrorCenter :=
  (jointview_center_typeerror _ _ _ _ _ (by decide)).1 rfl

/-- C3: evaluating t + c for a Track t and a Coverage c does produce a result
whose coverages are those of t with c appended on top, but it also mutates
the left operand: copy(self) is a shallow copy sharing the coverages list, so
after the call the coverages of t are [c], no longer the original []. -/
theorem track_add_coverage_mutates_left :
    (trackAddCoverage (⟨[]⟩ : TrackState ℕ) 7).2.coverages = [] ++ [7] ∧
    (trackAddCoverage (⟨[]⟩ : TrackState ℕ) 7).1.coverages ≠ ([] : List ℕ) := by
  exact ⟨rfl, by decide⟩

/-- C7: for every pair of Tracks a and b, a + b yields a Frame whose ordered
members are [a, b], and appending a third Track c yields [a, b, c]. The
embedding is pure: building the fresh Frame() and calling add_track on it
touches no pre-existing Frame. -/
theorem track_add_track_members {T : Type} (a b c : T) :
    (trackAddTrack a b).tracks = [a, b] ∧
    (frameAddTrack (trackAddTrack a b) c).tracks = [a, b, c] :=
  ⟨rfl, rfl⟩

/-- Two reversed suffix patterns both matching the head of the same reversed
list agree on their common length: the shorter pattern matches the head of
the longer one. -/
theorem sw_longer (s1 : List Char) : ∀ (l s2 : List Char),
    startsWithList l s1 = true → startsWithList l s2 = true →
    s1.length ≤ s2.length → startsWithList s2 s1 = true := by
  induction s1 with
  | nil => intro l s2 _ _ _; simp [startsWithList]
  | cons a as ih =>
    intro l s2 h1 h2 hle
    cases l with
    | nil => simp [startsWithList] at h1
    | cons c ls =>
      have h1x : c = a ∧ startsWithList ls as = true := by
        simpa [startsWithList] using h1
      cases s2 with
      | nil => simp at hle
      | cons b bs =>
        have h2x : c = b ∧ startsWithList ls bs = true := by
          simpa [startsWithList] using h2
        have hab : a = b := h1x.1.symm.trans h2x.1
        simp only [startsWithList, hab, decide_eq_true_eq, Bool.and_eq_true]
        exact ⟨trivial, ih ls bs h1x.2 h2x.2 (Nat.succ_le_succ_iff.mp hle)⟩

/-- Two incompatible literal suffixes cannot both end the same string. -/
theorem endswith_excl (p a b : String)
    (hconc1 : startsWithList b.data.reverse a.data.reverse = false)
    (hconc2 : startsWithList a.data.reverse b.data.reverse = false)
    (ha : endswith p a = true) : endswith p b = false := by
  by_contra hb
  rw [Bool.not_eq_false] at hb
  rcases Nat.le_total a.data.reverse.length b.data.reverse.length with hle | hle
  · have h2 := sw_longer a.data.reverse p.data.reverse b.data.reverse ha hb hle
    rw [hconc1] at h2
    exact Bool.false_ne_true h2
  · have h2 := sw_longer b.data.reverse p.data.reverse a.data.reverse hb ha hle
    rw [hconc2] at h2
    exact Bool.false_ne_true h2

/-- C8 (counterexample): the path a.bedpe.bgz ends neither in .bedpe nor in
.pairs, yet the Arcs factory returns a BEDPE track instead of raising the
NotImplementedError the claim promises for every other suffix. -/
theorem c8_arcs_counterexample :
    Arcs "a.bedpe.bgz" = .bedpe ∧
    endswith "a.bedpe.bgz" ".bedpe" = false ∧
    endswith "a.bedpe.bgz" ".pairs" = false ∧
    ArcsResult.bedpe ≠
      ArcsResult.notImplemented "Arcs track only support .bedpe or .pairs input format." := by
  refine ⟨?_, ?_, ?_, ?_⟩ <;> decide

/-- C8 (amended): the Arcs factory dispatches on the file suffix: .bedpe and
.bedpe.bgz give a BEDPE track, .pairs and .pairs.bgz give a Pairs track, and
every path ending in none of the four raises the NotImplementedError whose
message names the .bedpe and .pairs formats. -/
theorem arcs_dispatch (p : String) :
    (endswith p ".bedpe" = true → Arcs p = .bedpe) ∧
    (endswith p ".bedpe.bgz" = true → Arcs p = .bedpe) ∧
    (endswith p ".pairs" = true → Arcs p = .pairs) ∧
    (endswith p ".pairs.bgz" = true → Arcs p = .pairs) ∧
    (endswith p ".bedpe" = false → endswith p ".bedpe.bgz" = false →
     endswith p ".pairs" = false → endswith p ".pairs.bgz" = false →
       Arcs p = .notImplemented "Arcs track only support .bedpe or .pairs input format.") := by
  refine ⟨?_, ?_, ?_, ?_, ?_⟩
  · intro h
    simp [Arcs, h]
  · intro h
    simp [Arcs, h]
  · intro h
    have h1 : endswith p ".bedpe" = false :=
      endswith_excl p ".pairs" ".bedpe" (by decide) (by decide) h
    have h2 : endswith p ".bedpe.bgz" = false :=
      endswith_excl p ".pairs" ".bedpe.bgz" (by decide) (by decide) h
    simp [Arcs, h, h1, h2]
  · intro h
    have h1 : endswith p ".bedpe" = false :=
      endswith_excl p ".pairs.bgz" ".bedpe" (by decide) (by decide) h
    have h2 : endswith p ".bedpe.bgz" = false :=
      endswith_excl p ".pairs.bgz" ".bedpe.bgz" (by decide) (by decide) h
    simp [Arcs, h, h1, h2]
  · intro h1 h2 h3 h4
    simp [Arcs, h1, h2, h3, h4]

/-- Witness for arcs_dispatch at the concrete path x.pairs. -/
theorem arcs_dispatch_witness : Arcs "x.pairs" = .pairs :=
  (arcs_dispatch "x.pairs").2.2.1 (by decide)

/-- The rewrite of __bool2str never leaves a boolean value. -/
theorem bool2strV_not_bool (v : PValue) : (bool2strV v).isBool = false := by
  cases v <;> rfl

/-- A per-entry property preserved by a dict assignment. -/
theorem setKey_forall {P : String × PValue → Prop} :
    ∀ (ps : Props) (k : String) (v : PValue),
      (∀ kv ∈ ps, P kv) → P (k, v) → ∀ kv ∈ setKey ps k v, P kv := by
  intro ps
  induction ps with
  | nil =>
    intro k v _ hv kv hkv
    simp [setKey] at hkv
    rw [hkv]
    exact hv
  | cons hd tl ih =>
    intro k v hps hv kv hkv
    simp only [setKey] at hkv
    by_cases h : hd.1 = k
    · rw [if_pos h] at hkv
      rcases List.mem_cons.mp hkv with rfl | hmem
      · exact hv
      · exact hps kv (List.mem_cons_of_mem _ hmem)
    · rw [if_neg h] at hkv
      rcases List.mem_cons.mp hkv with rfl | hmem
      · exact hps kv (List.mem_cons_self _ _)
      · exact ih k v (fun x hx => hps x (List.mem_cons_of_mem _ hx)) hv kv hmem

/-- A per-entry property preserved by a sequence of dict assignments. -/
theorem foldl_setKey_forall {P : String × PValue → Prop} :
    ∀ (fs : Props) (acc : Props), (∀ kv ∈ acc, P kv) → (∀ kv ∈ fs, P kv) →
      ∀ kv ∈ fs.foldl (fun a kv => setKey a kv.1 kv.2) acc, P kv := by
  intro fs
  induction fs with
  | nil =>
    intro acc hacc _ kv hkv
    exact hacc kv hkv
  | cons hd tl ih =>
    intro acc hacc hfs kv hkv
    simp only [List.foldl_cons] at hkv
    exact ih (setKey acc hd.1 hd.2)
      (setKey_forall acc hd.1 hd.2 hacc (hfs hd (List.mem_cons_self _ _)))
      (fun x hx => hfs x (List.mem_cons_of_mem _ hx)) kv hkv

/-- Lookup after __bool2str is the rewritten lookup. -/
theorem lookupKey_bool2str (ps : Props) (k : String) :
    lookupKey (bool2str ps) k = (lookupKey ps k).map bool2strV := by
  induction ps with
  | nil => rfl
  | cons hd tl ih =>
    by_cases h : hd.1 = k
    · simp [bool2str, lookupKey, h]
    · simp only [bool2str, List.map_cons, lookupKey, if_neg h]
      simpa [bool2str] using ih

/-- Lookup at the assigned key returns the assigned value. -/
theorem lookupKey_setKey_self (ps : Props) (k : String) (v : PValue) :
    lookupKey (setKey ps k v) k = some v := by
  induction ps with
  | nil => simp [setKey, lookupKey]
  | cons hd tl ih =>
    by_cases h : hd.1 = k
    · simp [setKey, lookupKey, h]
    · simp [setKey, lookupKey, h, ih]

/-- Lookup at a different key is unchanged by an assignment. -/
theorem lookupKey_setKey_ne (ps : Props) (k kq : String) (v : PValue) (h : k ≠ kq) :
    lookupKey (setKey ps k v) kq = lookupKey ps kq := by
  induction ps with
  | nil => simp [setKey, lookupKey, h]
  | cons hd tl ih =>
    by_cases h2 : hd.1 = k
    · have h4 : hd.1 ≠ kq := by rw [h2]; exact h
      simp [setKey, lookupKey, h2, h, h4]
    · have h5 : kq ≠ k := Ne.symm h
      by_cases h3 : hd.1 = kq <;> simp [setKey, lookupKey, h2, h3, ih, h, h5]

/-- Lookup at a key none of the assignments touches is unchanged. -/
theorem lookupKey_foldl_setKey (fs : Props) (acc : Props) (k : String)
    (h : ∀ kv ∈ fs, kv.1 ≠ k) :
    lookupKey (fs.foldl (fun a kv => setKey a kv.1 kv.2) acc) k = lookupKey acc k := by
  induction fs generalizing acc with
  | nil => rfl
  | cons hd tl ih =>
    simp only [List.foldl_cons]
    rw [ih _ (fun kv hkv => h kv (List.mem_cons_of_mem _ hkv))]
    exact lookupKey_setKey_ne acc hd.1 k hd.2 (h hd (List.mem_cons_self _ _))

/-- C9: for every properties dict and every boolean-free global feature
stack, a successfully constructed Track has no boolean value left in its
properties, and every boolean supplied in the configuration (at a key the
feature stack does not overwrite) is stored as the string sentinel yes for
True and no for False. -/
theorem track_bool2str_normalization (props features : Props) (dn : String)
    (hf : ∀ kv ∈ features, PValue.isBool kv.2 = false)
    (res : Props) (hres : trackInit props features dn = .ok res) :
    (∀ kv ∈ res, PValue.isBool kv.2 = false) ∧
    (∀ k b, lookupKey props k = some (.bool b) →
      (∀ kv ∈ features, kv.1 ≠ k) →
      lookupKey res k = some (.str (if b then "yes" else "no"))) := by
  have hcore : ∀ nm : String,
      (res = features.foldl (fun acc kv => setKey acc kv.1 kv.2)
        (setKey (bool2str props) "name" (.str nm))) →
      ((∀ kv ∈ res, PValue.isBool kv.2 = false) ∧
       (∀ k b, lookupKey props k = some (.bool b) →
         (∀ kv ∈ features, kv.1 ≠ k) →
         (k = "name" → nm = (if b then "yes" else "no")) →
         lookupKey res k = some (.str (if b then "yes" else "no")))) := by
    intro nm hres2
    constructor
    · intro kv hkv
      rw [hres2] at hkv
      refine foldl_setKey_forall features _ ?_ hf kv hkv
      refine setKey_forall _ _ _ ?_ ?_
      · intro x hx
        simp only [bool2str, List.mem_map] at hx
        obtain ⟨y, _, rfl⟩ := hx
        exact bool2strV_not_bool y.2
      · rfl
    · intro k b hk hfk hname2
      rw [hres2, lookupKey_foldl_setKey _ _ _ hfk]
      by_cases hkn : k = "name"
      · subst hkn
        rw [lookupKey_setKey_self, hname2 rfl]
      · rw [lookupKey_setKey_ne _ _ _ _ (fun hh => hkn hh.symm)]
        rw [lookupKey_bool2str, hk]
        rfl
  unfold trackInit trackName at hres
  rcases hname : lookupKey (bool2str props) "name" with _ | v
  · rw [hname] at hres
    simp only [Except.map, Except.ok.injEq] at hres
    refine ⟨(hcore dn hres.symm).1, ?_⟩
    intro k b hk hfk
    refine (hcore dn hres.symm).2 k b hk hfk ?_
    intro hkn
    subst hkn
    rw [lookupKey_bool2str, hk] at hname
    simp at hname
  · cases v with
    | str s =>
      rw [hname] at hres
      simp only [Except.map, Except.ok.injEq] at hres
      refine ⟨(hcore s hres.symm).1, ?_⟩
      intro k b hk hfk
      refine (hcore s hres.symm).2 k b hk hfk ?_
      intro hkn
      subst hkn
      rw [lookupKey_bool2str, hk] at hname
      simp [bool2strV] at hname
      exact hname.symm
    | bool b =>
      rw [hname] at hres
      simp [Except.map] at hres
    | num q =>
      rw [hname] at hres
      simp [Except.map] at hres
    | obj t =>
      rw [hname] at hres
      simp [Except.map] at hres

/-- Witness for track_bool2str_normalization on a concrete configuration
holding balance = True. -/
theorem c9_witness :
    lookupKey resEx "balance" = some (.str (if true then "yes" else "no")) :=
  (track_bool2str_normalization propsEx [] "Cool.1" (by simp) resEx (by rfl)).2
    "balance" true (by rfl) (by simp)
